import Mathlib

/-!
# ping-thing-client: the probe loop

A shallow embedding of `src/ping-thing-client.mjs` (the `for (let i = 0; ; ++i)`
loop, source lines 39-190) and theorems about it.

What is embedded, and how:

* one iteration of the loop is the function `cycle`; the answers of the
  external collaborators during that iteration (the RPC client, the clock)
  are the fields of a `CycleEnv`;
* the one variable that lives across iterations, `tryCount`, is passed in and
  returned explicitly;
* everything observable that an iteration does (console lines, RPC calls, the
  POST to validators.app) is appended, in order, to a trace of `Event`s;
* a raised JavaScript value is a `Failure` (its `name` and `message`);
* `JSON.stringify` of the payload object literal yields the members of the
  JSON object, in order, without the members whose value is `undefined`.

What is left out: the two `setTimeout` sleeps, the timestamps at the head of
log lines, the transaction's contents (the instructions added at lines 68-92
never influence control flow), and failures of calls the source does not
expect to fail (`tx.sign`, `tx.serialize`, `JSON.stringify`, `restClient.open`,
`restClient.send`, whose transport errors come back as events, not as
exceptions).
JavaScript strings are UTF-16; the two phrases searched for are ASCII, so
searching by code point finds the same occurrences.
-/

namespace PingThing

/-! ## Constants (source lines 39-45) -/

/-- Source lines 40-41: `const FAKE_SIGNATURE = "99...9"`. -/
def FAKE_SIGNATURE : String :=
  "9999999999999999999999999999999999999999999999999999999999999999999999999999999999999999"

/-- Source line 44: `const MAX_TRIES = 3`. -/
def MAX_TRIES : Nat := 3

/-- The part of the configuration (source lines 22-28) read inside the loop. -/
structure Config where
  /-- Source line 24: `process.env.VA_API_KEY`, `none` when the variable is
  not set (there is no default). -/
  VA_API_KEY : Option String
  COMMITMENT_LEVEL : String
  VERBOSE_LOG : Bool
deriving DecidableEq

/-! ## JavaScript values -/

/-- A raised value `e`, as far as the loop looks at it: `e.name` and
`e.message`. `message = none` stands for a value of `e.message` on which
`.includes` cannot be called (`undefined`, `null`, a number). -/
structure Failure where
  name : String
  message : Option String
deriving DecidableEq

/-- `s.includes(pat)` of JavaScript: `pat` occurs somewhere in `s`. -/
def includes (s pat : String) : Bool :=
  s.data.tails.any (fun t => pat.data.isPrefixOf t)

/-- The values a member of the payload object literal can take. -/
inductive JsVal where
  | undefined
  | nan
  | num (n : Int)
  | str (s : String)
  | bool (b : Bool)
deriving DecidableEq

/-- A JSON value, as far as the payload needs one. -/
inductive Json where
  | null
  | num (n : Int)
  | str (s : String)
  | bool (b : Bool)
deriving DecidableEq

/-- A JSON object: its members in order. -/
abbrev JsonObject := List (String × Json)

/-- What `JSON.stringify` does to one member of an object: a member whose
value is `undefined` is dropped, `NaN` is written `null`. -/
def stringifyMember : String × JsVal → Option (String × Json)
  | (_, .undefined) => none
  | (k, .nan) => some (k, .null)
  | (k, .num n) => some (k, .num n)
  | (k, .str s) => some (k, .str s)
  | (k, .bool b) => some (k, .bool b)

/-- `JSON.stringify(obj)` for a flat object literal. -/
def JSON_stringify (obj : List (String × JsVal)) : JsonObject :=
  obj.filterMap stringifyMember

/-- The value of member `k` of a JSON object, `none` when it is absent. -/
def JsonObject.field (o : JsonObject) (k : String) : Option Json :=
  (o.find? (fun m => m.1 = k)).map (fun m => m.2)

/-- A variable holding a number or still `undefined`. -/
def JsVal.ofNum : Option Int → JsVal
  | none => .undefined
  | some n => .num n

/-- A variable holding a string or still `undefined`. -/
def JsVal.ofStr : Option String → JsVal
  | none => .undefined
  | some s => .str s

/-- Source line 160: `txEnd - txStart`, where `txEnd` is a `Date` and `txStart`
is a `Date` or still `undefined`. The difference of two dates is the
difference of their millisecond timestamps; `undefined` converts to `NaN`. -/
def dateDiff (txEnd : Int) : Option Int → JsVal
  | none => .nan
  | some txStart => .num (txEnd - txStart)

/-! ## The trace of one iteration -/

/-- The lines the loop writes with `console.log` (timestamps left out). -/
inductive LogEntry where
  /-- Source line 117: `ERROR: Unable to obtain a new blockhash`. -/
  | unableNewBlockhash
  /-- Source line 122: `ERROR: Blockhash not found`. -/
  | blockhashNotFound
  /-- Source line 129: `ERROR: Blockhash expired/block height exceeded. TX
  failure sent to VA.` -/
  | blockheightExceeded
  /-- Source lines 133 and 186: `ERROR: ` followed by `e.name`. -/
  | errorName (name : String)
  /-- Source line 134: `console.log(e.message)`. -/
  | errorMessage (message : String)
  /-- Source line 135: `console.log(e)`. -/
  | errorObject (e : Failure)
  /-- Source line 136: `console.log(JSON.stringify(e))`. -/
  | errorJson (e : Failure)
  /-- Source line 171: the payload, when `VERBOSE_LOG` is set. -/
  | payload (p : JsonObject)
  /-- Source line 187: `ERROR: ` followed by `e.message`. -/
  | outerMessage (message : Option String)
deriving DecidableEq

/-- The calls to the RPC client inside the loop. -/
inductive Call where
  /-- Source line 62. -/
  | getLatestBlockhash
  /-- Source line 63. -/
  | getSlot
  /-- Source line 97. -/
  | sendRawTransaction
  /-- Source line 101. -/
  | confirmTransaction (signature : String)
  /-- Source line 151; the variable `signature` may still be `undefined`. -/
  | getTransaction (signature : Option String)
deriving DecidableEq

/-- One observable action of the loop. -/
inductive Event where
  | log (l : LogEntry)
  | rpc (c : Call)
  /-- Source lines 175-181: the payload is POSTed to validators.app. -/
  | post (payload : JsonObject)
deriving DecidableEq

/-- The payloads POSTed in a trace, in order. -/
def emitted (t : List Event) : List JsonObject :=
  t.filterMap (fun ev => match ev with
    | .post p => some p
    | _ => none)

/-! ## The environment of one iteration -/

/-- The answers the collaborators give during one iteration. An answer is
consulted only if the iteration gets to the call. -/
structure CycleEnv where
  /-- Source lines 61-64: `Promise.all` of `getLatestBlockhash` and `getSlot`:
  the processed slot, or the rejection of whichever call failed first (the
  blockhash itself only goes into the transaction). -/
  acquire : Except Failure Int
  /-- Source line 95: the clock read by `txStart = new Date()`, milliseconds. -/
  txStart : Int
  /-- Source line 97: `sendRawTransaction`: the signature, or a failure. -/
  send : Except Failure String
  /-- Source line 101: `confirmTransaction`: a failure, or a result, which is
  `none` when `result.value.err` is falsy and `some j` when it is set, `j`
  being `JSON.stringify(result.value)`. -/
  confirm : Except Failure (Option String)
  /-- Source line 144: the clock read by `txEnd = new Date()`, milliseconds. -/
  txEnd : Int
  /-- Source line 151: `getTransaction`: a failure, `null` (`none`) or a
  transaction, of which only `slot` is read. -/
  lookup : Except Failure (Option Int)

/-- The `let` variables of source lines 55-58; `none` is `undefined`. -/
structure Locals where
  slotSent : Option Int := none
  slotLanded : Option Int := none
  signature : Option String := none
  txStart : Option Int := none
deriving DecidableEq

/-! ## One iteration -/

/-- Source lines 109-113: the failure raised when `result.value.err` is set;
`new Error(...)` has the name `Error`. -/
def transactionFailed (signature valueJson : String) : Failure :=
  { name := "Error"
    message := some ("Transaction " ++ signature ++ " failed (" ++ valueJson ++ ")") }

/-- Source lines 60-113, the inner `try` block: the variables as they stand
when the block is left, what it did, and the failure that ended it, if any. -/
def innerTry (env : CycleEnv) : Locals × List Event × Option Failure :=
  let t0 := [Event.rpc .getLatestBlockhash, Event.rpc .getSlot]
  match env.acquire with
  | .error e => ({}, t0, some e)
  | .ok slotProcessed =>
    let l1 : Locals := { slotSent := some slotProcessed, txStart := some env.txStart }
    let t1 := t0 ++ [Event.rpc .sendRawTransaction]
    match env.send with
    | .error e => (l1, t1, some e)
    | .ok signature =>
      let l2 : Locals := { l1 with signature := some signature }
      let t2 := t1 ++ [Event.rpc (.confirmTransaction signature)]
      match env.confirm with
      | .error e => (l2, t2, some e)
      | .ok (some valueJson) => (l2, t2, some (transactionFailed signature valueJson))
      | .ok none => (l2, t2, none)

/-- How the inner `catch` block (source lines 114-142) is left. -/
inductive CatchOutcome where
  /-- A `continue` statement: on to the next iteration. -/
  | loopAgain (logs : List LogEntry)
  /-- The end of the block (line 141) is reached. -/
  | fallThrough (l : Locals) (logs : List LogEntry)
  /-- The block itself raises. -/
  | raised (e : Failure)
deriving DecidableEq

/-- The `TypeError` of calling a method on a value that has none. The text is
the engine's and nothing depends on it. -/
def typeError (what : String) : Failure :=
  { name := "TypeError", message := some ("Cannot read properties of " ++ what) }

/-- Source lines 114-142, the inner `catch (e)` block. -/
def innerCatch (l : Locals) (e : Failure) : CatchOutcome :=
  match e.message with
  | none => .raised (typeError "undefined (reading 'includes')")
  | some m =>
    if includes m "new blockhash" then
      .loopAgain [.unableNewBlockhash]
    else if includes m "Blockhash not found" then
      .loopAgain [.blockhashNotFound]
    else if e.name = "TransactionExpiredBlockheightExceededError" then
      .fallThrough { l with signature := some FAKE_SIGNATURE } [.blockheightExceeded]
    else
      .loopAgain [.errorName e.name, .errorMessage m, .errorObject e, .errorJson e]

/-- Source lines 159-168: the object literal handed to `JSON.stringify`. -/
def payloadObject (cfg : Config) (txEnd : Int) (l : Locals) : List (String × JsVal) :=
  [ ("time", dateDiff txEnd l.txStart),
    ("signature", JsVal.ofStr l.signature),
    ("transaction_type", .str "transfer"),
    ("success", .bool (decide (l.signature ≠ some FAKE_SIGNATURE))),
    ("application", .str "web3"),
    ("commitment_level", .str cfg.COMMITMENT_LEVEL),
    ("slot_sent", JsVal.ofNum l.slotSent),
    ("slot_landed", JsVal.ofNum l.slotLanded) ]

/-- Source lines 158-181: build the payload, log it when verbose, POST it:
what was done, and the failure that ended it early, if any. Line 180,
`restClient.setRequestHeader("Token", VA_API_KEY)`, raises a `TypeError` when
`VA_API_KEY` is `undefined` (the header value is converted with `.toString()`),
and then `restClient.send` is never reached. -/
def report (cfg : Config) (txEnd : Int) (l : Locals) : List Event × Option Failure :=
  let payload := JSON_stringify (payloadObject cfg txEnd l)
  let t := if cfg.VERBOSE_LOG then [Event.log (.payload payload)] else []
  match cfg.VA_API_KEY with
  | none => (t, some (typeError "undefined (reading 'toString')"))
  | some _ => (t ++ [Event.post payload], none)

/-- Source lines 144-181, the statements after the inner `try`/`catch`: what
they did, and the failure that ended them early, if any. -/
def afterTry (cfg : Config) (env : CycleEnv) (l : Locals) : List Event × Option Failure :=
  if l.signature ≠ some FAKE_SIGNATURE then
    let t := [Event.rpc (.getTransaction l.signature)]
    match env.lookup with
    | .error e => (t, some e)
    | .ok none => (t, some (typeError "null (reading 'slot')"))
    | .ok (some slot) =>
      match report cfg env.txEnd { l with slotLanded := some slot } with
      | (t', r) => (t ++ t', r)
  else
    report cfg env.txEnd l

/-- How the body of the outer `try` (source lines 54-184) is left. -/
inductive BodyOutcome where
  /-- Line 184 was reached. -/
  | completed
  /-- A `continue` in the inner `catch`. -/
  | continued
  /-- A failure reaches the outer `catch`. -/
  | failed (e : Failure)
deriving DecidableEq

/-- Source lines 54-184 without the assignment of line 184. -/
def body (cfg : Config) (env : CycleEnv) : List Event × BodyOutcome :=
  match innerTry env with
  | (l, t, none) =>
    match afterTry cfg env l with
    | (t', none) => (t ++ t', .completed)
    | (t', some e) => (t ++ t', .failed e)
  | (l, t, some e) =>
    match innerCatch l e with
    | .loopAgain logs => (t ++ logs.map Event.log, .continued)
    | .raised e' => (t, .failed e')
    | .fallThrough l' logs =>
      match afterTry cfg env l' with
      | (t', none) => (t ++ logs.map Event.log ++ t', .completed)
      | (t', some e') => (t ++ logs.map Event.log ++ t', .failed e')

/-- What one iteration leaves behind. -/
structure CycleResult where
  /-- The value of `tryCount` after the iteration. -/
  tryCount : Nat
  /-- What the iteration did. -/
  trace : List Event
  /-- The failure rethrown at line 188, which ends the loop. -/
  thrown : Option Failure
deriving DecidableEq

/-- Source lines 54-189: one iteration, from the value of `tryCount` before
it. Line 184 resets the counter; line 188 is `if (++tryCount === MAX_TRIES)
throw e`. -/
def cycle (cfg : Config) (tryCount : Nat) (env : CycleEnv) : CycleResult :=
  match body cfg env with
  | (t, .completed) => { tryCount := 0, trace := t, thrown := none }
  | (t, .continued) => { tryCount := tryCount, trace := t, thrown := none }
  | (t, .failed e) =>
    { tryCount := tryCount + 1
      trace := t ++ [Event.log (.errorName e.name), Event.log (.outerMessage e.message)]
      thrown := if tryCount + 1 = MAX_TRIES then some e else none }

/-- Source lines 48-190: the loop over the iterations whose environments are
given, from a value of `tryCount`; it stops at the first iteration that
rethrows. -/
def run (cfg : Config) : Nat → List CycleEnv → CycleResult
  | tryCount, [] => { tryCount := tryCount, trace := [], thrown := none }
  | tryCount, env :: rest =>
    let r := cycle cfg tryCount env
    match r.thrown with
    | some _ => r
    | none =>
      let r' := run cfg r.tryCount rest
      { r' with trace := r.trace ++ r'.trace }

/-- The failure that ends the inner `try` block of an iteration, if any: the
one raised by the reference acquisition, by the send or by the confirmation
(the rejection raised at line 110 included). -/
def raisedInTry (env : CycleEnv) : Option Failure :=
  (innerTry env).2.2

/-! ## The classification as the specification words it -/

/-- The classes of the specification's error classifier. -/
inductive Classification where
  | SilentRetry
  | RecordAsFailure
  | UnknownRetry
deriving DecidableEq

/-- The text `pat` occurs in the text `s`: some stretch of `s` is `pat`. -/
def Contains (s pat : String) : Prop :=
  pat.data <:+: s.data

instance (s pat : String) : Decidable (Contains s pat) := by
  unfold Contains; infer_instance

/-- The classifier in the specification's words, first match wins: a message
that contains "new blockhash" is a silent retry, so is one that contains
"Blockhash not found", then the name TransactionExpiredBlockheightExceededError
is recorded as a failure, anything else is an unknown retry. -/
def classifySpec (name message : String) : Classification :=
  if Contains message "new blockhash" then .SilentRetry
  else if Contains message "Blockhash not found" then .SilentRetry
  else if name = "TransactionExpiredBlockheightExceededError" then .RecordAsFailure
  else .UnknownRetry

/-- The name the inner `catch` compares `e.name` with (source line 128). -/
abbrev EXPIRED : String := "TransactionExpiredBlockheightExceededError"

/-- The digits of base-58, in which the chain writes a signature. -/
def BASE58 : String := "123456789ABCDEFGHJKLMNPQRSTUVWXYZabcdefghijkmnopqrstuvwxyz"

/-- Every character of `s` is a base-58 digit, as in every signature that
`sendRawTransaction` returns. -/
def isBase58 (s : String) : Bool :=
  s.data.all (fun c => BASE58.data.contains c)

/-- The failure with which `confirmTransaction` rejects when the last valid
block height has passed. The class is the chain client's (`@solana/web3.js`),
not this repository's: its constructor sets the name to
TransactionExpiredBlockheightExceededError and the message to
`Signature ${signature} has expired: block height exceeded.`, and no other
call of the client builds it. -/
def expiredFailure (signature : String) : Failure :=
  { name := "TransactionExpiredBlockheightExceededError"
    message := some ("Signature " ++ signature ++ " has expired: block height exceeded.") }

/-- An iteration whose inner `try` block raises a failure with a string
message that holds neither phrase and whose name is not the expiry's: the
failure the last branch of the inner `catch` (source lines 132-138) takes. -/
def RaisesUnrecognized (env : CycleEnv) : Prop :=
  ∃ e m, raisedInTry env = some e ∧ e.message = some m ∧
    includes m "new blockhash" = false ∧ includes m "Blockhash not found" = false ∧
    e.name ≠ EXPIRED

/-! ## Sample iterations -/

/-- A configuration: the default commitment, quiet. -/
def cfgDefault : Config :=
  { VA_API_KEY := some "va-token", COMMITMENT_LEVEL := "confirmed", VERBOSE_LOG := false }

/-- The same configuration with `VA_API_KEY` not set. -/
def cfgNoToken : Config := { cfgDefault with VA_API_KEY := none }

/-- A signature as `sendRawTransaction` returns one. -/
def sampleSignature : String :=
  "5VERv8NMvzbJMEkV8xnrLkEaWRtSz9CosKDYjCJjBRnbJLgp8uirBgmQpjKhoR4tjF3ZpRzrFmBV6UjKdiSZkQUW"

/-- All goes well: sent at slot 100, landed at slot 102, 450 ms. -/
def envLanded : CycleEnv :=
  { acquire := .ok 100, txStart := 1000, send := .ok sampleSignature,
    confirm := .ok none, txEnd := 1450, lookup := .ok (some 102) }

/-- The reference acquisition fails with a message holding "new blockhash". -/
def envNoNewBlockhash : CycleEnv :=
  { envLanded with
    acquire := .error { name := "Error",
                        message := some "Unable to obtain a new blockhash after 10012ms" } }

/-- The reference acquisition fails with an error the loop does not know. -/
def envUnknown : CycleEnv :=
  { envLanded with
    acquire := .error { name := "Error", message := some "429 Too Many Requests" } }

/-- The confirmation fails: the block height was exceeded. -/
def envExpired : CycleEnv :=
  { envLanded with confirm := .error (expiredFailure sampleSignature) }

/-- The confirmation answers with `result.value.err` set. -/
def envRejected : CycleEnv :=
  { envLanded with confirm := .ok (some "\x7b\"err\":\"AccountInUse\"\x7d") }

/-- Sent and confirmed, then `getTransaction` fails. -/
def envLookupFails : CycleEnv :=
  { envLanded with
    lookup := .error { name := "Error", message := some "failed to get transaction" } }

/-! ## Lemmas on the embedding -/

theorem includes_iff_contains (s pat : String) : includes s pat = true ↔ Contains s pat := by
  unfold includes Contains
  rw [List.any_eq_true, List.infix_iff_prefix_suffix]
  constructor
  · rintro ⟨t, ht, hp⟩
    exact ⟨t, List.isPrefixOf_iff_prefix.mp hp, (List.mem_tails _ _).mp ht⟩
  · rintro ⟨t, hp, ht⟩
    exact ⟨t, (List.mem_tails _ _).mpr ht, List.isPrefixOf_iff_prefix.mpr hp⟩

/-- A text with a blank inside does not occur in `x ++ sig ++ y` when `sig`
has no blank, unless its part up to the blank occurs in `x` or its part from
the blank on occurs in `y`. -/
theorem not_infix_around (a b x sig y : List Char) (hsig : ' ' ∉ sig)
    (hx : ¬ (a ++ [' ']) <:+: x) (hy : ¬ (' ' :: b) <:+: y) :
    ¬ (a ++ ' ' :: b) <:+: (x ++ sig ++ y) := by
  rintro ⟨u, v, h⟩
  have h' : (u ++ a) ++ (' ' :: (b ++ v)) = (x ++ sig) ++ y := by
    simpa [List.append_assoc] using h
  rcases List.append_eq_append_iff.mp h' with ⟨c, h1, h2⟩ | ⟨c, h1, h2⟩
  · cases c with
    | nil =>
      apply hy
      exact ⟨[], v, by simp at h2; rw [← h2]; simp⟩
    | cons ch c' =>
      have hch : ch = ' ' := by
        have := h2; simp at this; exact this.1.symm
      subst hch
      rcases List.append_eq_append_iff.mp h1 with ⟨d, g1, g2⟩ | ⟨d, g1, g2⟩
      · apply hsig
        rw [g2]; simp
      · cases d with
        | nil =>
          apply hsig
          have : sig = ' ' :: c' := by simpa using g2.symm
          rw [this]; simp
        | cons dh d' =>
          have hdh : dh = ' ' := by
            have := g2; simp at this; exact this.1.symm
          subst hdh
          apply hx
          exact ⟨u, d', by rw [g1]; simp [List.append_assoc]⟩
  · apply hy
    exact ⟨c, v, by rw [h2]; simp [List.append_assoc]⟩

/-- The message of the expiry failure for a base-58 signature holds neither
of the two blockhash phrases. -/
theorem expired_message_no_phrase (sig : String) (hb : isBase58 sig = true) :
    includes ("Signature " ++ sig ++ " has expired: block height exceeded.")
        "new blockhash" = false ∧
      includes ("Signature " ++ sig ++ " has expired: block height exceeded.")
        "Blockhash not found" = false := by
  have hsp : ' ' ∉ sig.data := by
    intro hmem
    have h := List.all_eq_true.mp hb ' ' hmem
    revert h
    decide
  constructor
  · rw [← Bool.not_eq_true, includes_iff_contains]
    unfold Contains
    have hp : "new blockhash".data = "new".data ++ ' ' :: "blockhash".data := by decide
    rw [hp, String.data_append, String.data_append]
    exact not_infix_around _ _ _ _ _ hsp (by decide) (by decide)
  · rw [← Bool.not_eq_true, includes_iff_contains]
    unfold Contains
    have hp : "Blockhash not found".data = "Blockhash".data ++ ' ' :: "not found".data := by
      decide
    rw [hp, String.data_append, String.data_append]
    exact not_infix_around _ _ _ _ _ hsp (by decide) (by decide)

@[simp] theorem emitted_nil : emitted [] = [] := rfl

@[simp] theorem emitted_append (t t' : List Event) :
    emitted (t ++ t') = emitted t ++ emitted t' := by
  simp [emitted, List.filterMap_append]

@[simp] theorem emitted_cons_log (l : LogEntry) (t : List Event) :
    emitted (Event.log l :: t) = emitted t := by
  simp [emitted, List.filterMap_cons]

@[simp] theorem emitted_cons_rpc (c : Call) (t : List Event) :
    emitted (Event.rpc c :: t) = emitted t := by
  simp [emitted, List.filterMap_cons]

@[simp] theorem emitted_cons_post (p : JsonObject) (t : List Event) :
    emitted (Event.post p :: t) = p :: emitted t := by
  simp [emitted, List.filterMap_cons]

@[simp] theorem emitted_map_log (logs : List LogEntry) :
    emitted (logs.map Event.log) = [] := by
  induction logs with
  | nil => rfl
  | cons l ls ih => simpa using ih

/-- The POST step either sends the payload and ends well, or raises before
anything is sent. -/
theorem report_cases (cfg : Config) (txEnd : Int) (l : Locals) :
    (∃ e, (report cfg txEnd l).2 = some e ∧ emitted (report cfg txEnd l).1 = [] ∧
        cfg.VA_API_KEY = none) ∨
    ((report cfg txEnd l).2 = none ∧
        emitted (report cfg txEnd l).1 = [JSON_stringify (payloadObject cfg txEnd l)]) := by
  unfold report
  rcases hk : cfg.VA_API_KEY with _ | key
  · left
    refine ⟨typeError "undefined (reading 'toString')", ?_⟩
    cases cfg.VERBOSE_LOG <;> simp
  · right
    cases cfg.VERBOSE_LOG <;> simp

/-- With the token set the POST step sends the payload and ends well. -/
theorem report_of_key (cfg : Config) (txEnd : Int) (l : Locals) (key : String)
    (hk : cfg.VA_API_KEY = some key) :
    report cfg txEnd l =
      ((if cfg.VERBOSE_LOG then [Event.log (.payload (JSON_stringify (payloadObject cfg txEnd l)))]
          else []) ++ [Event.post (JSON_stringify (payloadObject cfg txEnd l))], none) := by
  simp [report, hk]

/-- The inner `try` block performs no POST. -/
theorem emitted_innerTry (env : CycleEnv) : emitted (innerTry env).2.1 = [] := by
  unfold innerTry
  rcases env.acquire with e | slot
  · simp
  · rcases env.send with e | sig
    · simp
    · rcases env.confirm with e | (_ | j) <;> simp

/-- An iteration whose inner `catch` ends in `continue` leaves the counter
alone, POSTs nothing and does not end the loop. -/
theorem cycle_of_loopAgain (cfg : Config) (tryCount : Nat) (env : CycleEnv)
    (l : Locals) (t : List Event) (e : Failure) (logs : List LogEntry)
    (h : innerTry env = (l, t, some e)) (hc : innerCatch l e = .loopAgain logs) :
    cycle cfg tryCount env =
      { tryCount := tryCount, trace := t ++ logs.map Event.log, thrown := none } := by
  simp [cycle, body, h, hc]

/-! ### The members of the payload -/

theorem field_time (cfg : Config) (txEnd : Int) (l : Locals) :
    (JSON_stringify (payloadObject cfg txEnd l)).field "time" =
      some (match l.txStart with
        | some txStart => Json.num (txEnd - txStart)
        | none => Json.null) := by
  rcases l with ⟨_ | ss, _ | sl, _ | sg, _ | ts⟩ <;>
    simp [JSON_stringify, payloadObject, stringifyMember, JsonObject.field, dateDiff,
      JsVal.ofNum, JsVal.ofStr]

theorem field_success (cfg : Config) (txEnd : Int) (l : Locals) :
    (JSON_stringify (payloadObject cfg txEnd l)).field "success" =
      some (Json.bool (decide (l.signature ≠ some FAKE_SIGNATURE))) := by
  rcases l with ⟨_ | ss, _ | sl, _ | sg, _ | ts⟩ <;>
    simp [JSON_stringify, payloadObject, stringifyMember, JsonObject.field, dateDiff,
      JsVal.ofNum, JsVal.ofStr]

theorem field_signature (cfg : Config) (txEnd : Int) (l : Locals) :
    (JSON_stringify (payloadObject cfg txEnd l)).field "signature" =
      l.signature.map Json.str := by
  rcases l with ⟨_ | ss, _ | sl, _ | sg, _ | ts⟩ <;>
    simp [JSON_stringify, payloadObject, stringifyMember, JsonObject.field, dateDiff,
      JsVal.ofNum, JsVal.ofStr]

theorem field_slot_sent (cfg : Config) (txEnd : Int) (l : Locals) :
    (JSON_stringify (payloadObject cfg txEnd l)).field "slot_sent" =
      l.slotSent.map Json.num := by
  rcases l with ⟨_ | ss, _ | sl, _ | sg, _ | ts⟩ <;>
    simp [JSON_stringify, payloadObject, stringifyMember, JsonObject.field, dateDiff,
      JsVal.ofNum, JsVal.ofStr]

theorem field_slot_landed (cfg : Config) (txEnd : Int) (l : Locals) :
    (JSON_stringify (payloadObject cfg txEnd l)).field "slot_landed" =
      l.slotLanded.map Json.num := by
  rcases l with ⟨_ | ss, _ | sl, _ | sg, _ | ts⟩ <;>
    simp [JSON_stringify, payloadObject, stringifyMember, JsonObject.field, dateDiff,
      JsVal.ofNum, JsVal.ofStr]

/-! ### The paths through one iteration -/

/-- When the inner `try` block ends without a failure, the three variables it
assigns are set: the slot, the start time and the signature that was sent. -/
theorem innerTry_ok (env : CycleEnv) (l : Locals) (t : List Event)
    (h : innerTry env = (l, t, none)) :
    ∃ slot sig, env.acquire = .ok slot ∧ env.send = .ok sig ∧ env.confirm = .ok none ∧
      l = { slotSent := some slot, txStart := some env.txStart, signature := some sig } := by
  unfold innerTry at h
  rcases ha : env.acquire with e | slot
  · simp [ha] at h
  · rcases hs : env.send with e | sig
    · simp [ha, hs] at h
    · rcases hc : env.confirm with e | (_ | j)
      · simp [ha, hs, hc] at h
      · simp [ha, hs, hc] at h
        exact ⟨slot, sig, rfl, rfl, rfl, h.1.symm⟩
      · simp [ha, hs, hc] at h

/-- The statements after the inner `try`/`catch` POST exactly the payload
built from the variables, with the landed slot filled in, or raise before
they POST anything. -/
theorem afterTry_cases (cfg : Config) (env : CycleEnv) (l : Locals) :
    (∃ e, (afterTry cfg env l).2 = some e ∧ emitted (afterTry cfg env l).1 = []) ∨
    (∃ sl, (afterTry cfg env l).2 = none ∧
        emitted (afterTry cfg env l).1 =
          [JSON_stringify (payloadObject cfg env.txEnd { l with slotLanded := sl })]) := by
  unfold afterTry
  by_cases hs : l.signature = some FAKE_SIGNATURE
  · rcases report_cases cfg env.txEnd l with ⟨e, h2, h1, -⟩ | ⟨h2, h1⟩
    · left; exact ⟨e, by simp [hs, h2, h1]⟩
    · right
      refine ⟨l.slotLanded, ?_⟩
      have hl : ({ l with slotLanded := l.slotLanded } : Locals) = l := rfl
      rw [hl]
      simp [hs, h2, h1]
  · rcases hl : env.lookup with e | (_ | slot)
    · left; exact ⟨e, by simp [hs]⟩
    · left; exact ⟨typeError "null (reading 'slot')", by simp [hs]⟩
    · rcases report_cases cfg env.txEnd { l with slotLanded := some slot } with
        ⟨e, h2, h1, -⟩ | ⟨h2, h1⟩
      · left
        refine ⟨e, ?_⟩
        simpa [hs] using And.intro h2 h1
      · right
        refine ⟨some slot, ?_⟩
        simpa [hs] using And.intro h2 h1

/-- The body of an iteration either reaches line 184 having POSTed exactly one
payload, built from variables whose `signature` is set, or leaves early
having POSTed nothing. -/
theorem body_cases (cfg : Config) (env : CycleEnv) :
    (∃ l s, (body cfg env).2 = .completed ∧ l.signature = some s ∧
        emitted (body cfg env).1 = [JSON_stringify (payloadObject cfg env.txEnd l)] ∧
        l.txStart = (innerTry env).1.txStart ∧ l.slotSent = (innerTry env).1.slotSent) ∨
    ((body cfg env).2 ≠ .completed ∧ emitted (body cfg env).1 = []) := by
  have ht := emitted_innerTry env
  unfold body
  rcases h : innerTry env with ⟨l, t, _ | e⟩
  · rw [h] at ht
    simp only at ht
    obtain ⟨slot, sig, -, -, -, hl⟩ := innerTry_ok env l t h
    have hsig : l.signature = some sig := by rw [hl]
    rcases afterTry_cases cfg env l with ⟨e, h2, h1⟩ | ⟨sl, h2, h1⟩
    · right
      rcases ha : afterTry cfg env l with ⟨t', _ | e'⟩
      · simp [ha] at h2
      · simp only [ha] at h1 ⊢
        simp [ht, h1]
    · left
      rcases ha : afterTry cfg env l with ⟨t', _ | e'⟩
      · simp only [ha] at h1 ⊢
        exact ⟨{ l with slotLanded := sl }, sig, by simp [ht, h1, hsig]⟩
      · simp [ha] at h2
  · rw [h] at ht
    simp only at ht
    rcases hc : innerCatch l e with logs | ⟨l', logs⟩ | e'
    · right; simp [hc, ht]
    · have hl' : l'.signature = some FAKE_SIGNATURE := by
        unfold innerCatch at hc
        rcases hm : e.message with _ | m
        · simp [hm] at hc
        · simp only [hm] at hc
          split_ifs at hc
          simp at hc
          rw [← hc.1]
      have hl2 : l'.txStart = l.txStart ∧ l'.slotSent = l.slotSent := by
        unfold innerCatch at hc
        rcases hm : e.message with _ | m
        · simp [hm] at hc
        · simp only [hm] at hc
          split_ifs at hc
          simp at hc
          rw [← hc.1]
          exact ⟨rfl, rfl⟩
      rcases afterTry_cases cfg env l' with ⟨e, h2, h1⟩ | ⟨sl, h2, h1⟩
      · right
        rcases ha : afterTry cfg env l' with ⟨t', _ | e'⟩
        · simp [ha] at h2
        · simp only [hc, ha] at h1 ⊢
          simp [ht, h1]
      · left
        rcases ha : afterTry cfg env l' with ⟨t', _ | e'⟩
        · simp only [hc, ha] at h1 ⊢
          exact ⟨{ l' with slotLanded := sl }, FAKE_SIGNATURE, by simp [ht, h1, hl', hl2]⟩
        · simp [ha] at h2
    · right; simp [hc, ht]

theorem cycle_emitted (cfg : Config) (tryCount : Nat) (env : CycleEnv) :
    emitted (cycle cfg tryCount env).trace = emitted (body cfg env).1 := by
  unfold cycle
  rcases body cfg env with ⟨t, _ | _ | e⟩ <;> simp

/-- With `VA_API_KEY` set, an iteration whose inner `catch` reaches line 141
goes on to POST the payload without a lookup, and line 184 resets the
counter. -/
theorem cycle_of_fallThrough (cfg : Config) (tryCount : Nat) (env : CycleEnv)
    (l : Locals) (t : List Event) (e : Failure) (l' : Locals) (logs : List LogEntry)
    (key : String) (hk : cfg.VA_API_KEY = some key)
    (h : innerTry env = (l, t, some e)) (hc : innerCatch l e = .fallThrough l' logs)
    (hs : l'.signature = some FAKE_SIGNATURE) :
    cycle cfg tryCount env =
      { tryCount := 0, trace := t ++ logs.map Event.log ++ (report cfg env.txEnd l').1,
        thrown := none } := by
  simp [cycle, body, h, hc, afterTry, hs, report_of_key cfg env.txEnd l' key hk]

/-- The last branch of the inner `catch`. -/
theorem innerCatch_unrecognized (l : Locals) (e : Failure) (m : String)
    (hm : e.message = some m) (h1 : includes m "new blockhash" = false)
    (h2 : includes m "Blockhash not found" = false) (hn : e.name ≠ EXPIRED) :
    innerCatch l e =
      .loopAgain [.errorName e.name, .errorMessage m, .errorObject e, .errorJson e] := by
  simp [innerCatch, hm, h1, h2, hn]

/-- The expiry branch of the inner `catch`. -/
theorem innerCatch_expired (l : Locals) (e : Failure) (m : String)
    (hm : e.message = some m) (h1 : includes m "new blockhash" = false)
    (h2 : includes m "Blockhash not found" = false) (hn : e.name = EXPIRED) :
    innerCatch l e =
      .fallThrough { l with signature := some FAKE_SIGNATURE } [.blockheightExceeded] := by
  simp [innerCatch, hm, h1, h2, hn]

/-- The two blockhash branches of the inner `catch`. -/
theorem innerCatch_blockhash (l : Locals) (e : Failure) (m : String)
    (hm : e.message = some m)
    (hp : includes m "new blockhash" = true ∨ includes m "Blockhash not found" = true) :
    innerCatch l e = .loopAgain [.unableNewBlockhash] ∨
      innerCatch l e = .loopAgain [.blockhashNotFound] := by
  by_cases h1 : includes m "new blockhash" = true
  · left; simp [innerCatch, hm, h1]
  · right
    have h2 : includes m "Blockhash not found" = true := hp.resolve_left h1
    simp [innerCatch, hm, h1, h2]

/-- The failure raised at line 110 never takes the expiry branch: the inner
`catch` logs a blockhash line or the four lines of error detail and ends in
`continue`. -/
theorem innerCatch_transactionFailed (l : Locals) (signature valueJson : String) :
    innerCatch l (transactionFailed signature valueJson) = .loopAgain [.unableNewBlockhash] ∨
      innerCatch l (transactionFailed signature valueJson) = .loopAgain [.blockhashNotFound] ∨
      innerCatch l (transactionFailed signature valueJson) =
        .loopAgain [.errorName "Error",
          .errorMessage ("Transaction " ++ signature ++ " failed (" ++ valueJson ++ ")"),
          .errorObject (transactionFailed signature valueJson),
          .errorJson (transactionFailed signature valueJson)] := by
  unfold innerCatch transactionFailed
  simp only
  split_ifs with h1 h2 h3
  · exact Or.inl rfl
  · exact Or.inr (Or.inl rfl)
  · exact absurd h3 (by decide)
  · exact Or.inr (Or.inr rfl)

/-- The variables and the trace at the point where the inner `try` raises. -/
theorem raisedInTry_iff (env : CycleEnv) (e : Failure) :
    raisedInTry env = some e ↔ ∃ l t, innerTry env = (l, t, some e) := by
  unfold raisedInTry
  constructor
  · intro h
    rcases hi : innerTry env with ⟨l, t, o⟩
    rw [hi] at h
    simp only at h
    exact ⟨l, t, by rw [h]⟩
  · rintro ⟨l, t, hi⟩
    rw [hi]

/-- An iteration that raises an unrecognized failure in the inner `try`:
the four lines of error detail are logged, then `continue`. -/
theorem cycle_of_unrecognized (cfg : Config) (tryCount : Nat) (env : CycleEnv)
    (e : Failure) (m : String) (he : raisedInTry env = some e) (hm : e.message = some m)
    (h1 : includes m "new blockhash" = false)
    (h2 : includes m "Blockhash not found" = false) (hn : e.name ≠ EXPIRED) :
    cycle cfg tryCount env =
      { tryCount := tryCount
        trace := (innerTry env).2.1 ++
          [Event.log (.errorName e.name), Event.log (.errorMessage m),
            Event.log (.errorObject e), Event.log (.errorJson e)]
        thrown := none } := by
  obtain ⟨l, t, hi⟩ := (raisedInTry_iff env e).mp he
  rw [cycle_of_loopAgain cfg tryCount env l t e _ hi (innerCatch_unrecognized l e m hm h1 h2 hn),
    hi]
  simp

/-- When `getTransaction` returns `null`, reading `txLanded.slot` at line 155
raises a `TypeError`, which the outer `catch` handles like any other failure:
nothing is POSTed and the counter goes up by one. -/
theorem cycle_of_lookup_null (cfg : Config) (tryCount : Nat) (env : CycleEnv)
    (slot : Int) (sig : String)
    (ha : env.acquire = .ok slot) (hs : env.send = .ok sig) (hc : env.confirm = .ok none)
    (hsig : sig ≠ FAKE_SIGNATURE) (hl : env.lookup = .ok none) :
    emitted (cycle cfg tryCount env).trace = [] ∧
      (cycle cfg tryCount env).tryCount = tryCount + 1 := by
  simp [cycle, body, innerTry, ha, hs, hc, afterTry, hsig, hl]

/-- The counter after an iteration, from how the body was left. -/
theorem cycle_tryCount (cfg : Config) (tryCount : Nat) (env : CycleEnv) :
    ((body cfg env).2 = .completed → (cycle cfg tryCount env).tryCount = 0) ∧
      ((body cfg env).2 ≠ .completed → tryCount ≤ (cycle cfg tryCount env).tryCount) := by
  unfold cycle
  rcases body cfg env with ⟨t, _ | _ | e⟩ <;> simp

/-- When the reference acquisition succeeds, so that line 95 is reached
before anything can be raised, every payload the iteration POSTs has `time`
equal to the end clock minus the start clock. -/
theorem time_when_start_recorded (cfg : Config) (tryCount : Nat) (env : CycleEnv)
    (slot : Int) (ha : env.acquire = .ok slot)
    (p : JsonObject) (hp : p ∈ emitted (cycle cfg tryCount env).trace) :
    p.field "time" = some (Json.num (env.txEnd - env.txStart)) := by
  have hst : (innerTry env).1.txStart = some env.txStart := by
    unfold innerTry
    rcases hs : env.send with e | sig
    · simp [ha]
    · rcases hc : env.confirm with e | (_ | j) <;> simp [ha]
  rw [cycle_emitted] at hp
  rcases body_cases cfg env with ⟨l, s, -, -, he, hts, -⟩ | ⟨-, he⟩
  · rw [he, List.mem_singleton] at hp
    subst hp
    rw [field_time, hts, hst]
  · rw [he] at hp
    exact absurd hp (List.not_mem_nil _)

/-- When the reference acquisition raises a failure that does not bear the
expiry's name, the iteration POSTs nothing. -/
theorem emitted_of_acquire_failed (cfg : Config) (tryCount : Nat) (env : CycleEnv)
    (e : Failure) (ha : env.acquire = .error e) (hn : e.name ≠ EXPIRED) :
    emitted (cycle cfg tryCount env).trace = [] := by
  rw [cycle_emitted]
  unfold body innerTry
  simp only [ha]
  unfold innerCatch
  rcases hm : e.message with _ | m
  · simp
  · simp only
    split_ifs <;> simp

/-! ## The claims -/

/-- C1: every payload that an iteration POSTs has a boolean `success` member
and a string `signature` member, and `success` is true exactly when
`signature` is not `FAKE_SIGNATURE`. -/
theorem payload_success_iff_not_sentinel (cfg : Config) (tryCount : Nat) (env : CycleEnv)
    (p : JsonObject) (hp : p ∈ emitted (cycle cfg tryCount env).trace) :
    ∃ b s, p.field "success" = some (Json.bool b) ∧ p.field "signature" = some (Json.str s) ∧
      (b = true ↔ s ≠ FAKE_SIGNATURE) := by
  rw [cycle_emitted] at hp
  rcases body_cases cfg env with ⟨l, s, -, hs, he, -, -⟩ | ⟨-, he⟩
  · rw [he, List.mem_singleton] at hp
    subst hp
    refine ⟨decide (l.signature ≠ some FAKE_SIGNATURE), s, field_success _ _ _, ?_, ?_⟩
    · rw [field_signature, hs]; rfl
    · simp [hs]
  · rw [he] at hp
    exact absurd hp (List.not_mem_nil _)

/-- Witness of C1: the payload of the iteration `envLanded`. -/
theorem payload_success_iff_not_sentinel_witness :
    JSON_stringify (payloadObject cfgDefault 1450
        { slotSent := some 100, slotLanded := some 102, signature := some sampleSignature,
          txStart := some 1000 }) ∈ emitted (cycle cfgDefault 0 envLanded).trace ∧
      ∃ b s,
        JsonObject.field (JSON_stringify (payloadObject cfgDefault 1450
          { slotSent := some 100, slotLanded := some 102, signature := some sampleSignature,
            txStart := some 1000 })) "success" = some (Json.bool b) ∧
        JsonObject.field (JSON_stringify (payloadObject cfgDefault 1450
          { slotSent := some 100, slotLanded := some 102, signature := some sampleSignature,
            txStart := some 1000 })) "signature" = some (Json.str s) ∧
        (b = true ↔ s ≠ FAKE_SIGNATURE) :=
  ⟨by decide, payload_success_iff_not_sentinel cfgDefault 0 envLanded _ (by decide)⟩

/-- C2, as the code has it: every iteration whose inner `try` raises an
unrecognized failure (a string message holding neither "new blockhash" nor
"Blockhash not found", a name other than
TransactionExpiredBlockheightExceededError) logs the four lines of error
detail (the name, the message, the object, its serialized form) after the
calls it made, leaves `tryCount` as it was, POSTs nothing and does not end
the loop; so a run of any number of such iterations ends with `tryCount`
unchanged, nothing POSTed and nothing rethrown. -/
theorem unrecognized_failures_never_count (cfg : Config) (tryCount : Nat)
    (envs : List CycleEnv) (h : ∀ env ∈ envs, RaisesUnrecognized env) :
    (∀ env ∈ envs, ∀ n : Nat, ∃ e m, raisedInTry env = some e ∧ e.message = some m ∧
        cycle cfg n env =
          { tryCount := n
            trace := (innerTry env).2.1 ++
              [Event.log (.errorName e.name), Event.log (.errorMessage m),
                Event.log (.errorObject e), Event.log (.errorJson e)]
            thrown := none } ∧
        emitted (cycle cfg n env).trace = []) ∧
      (run cfg tryCount envs).tryCount = tryCount ∧
      emitted (run cfg tryCount envs).trace = [] ∧
      (run cfg tryCount envs).thrown = none := by
  have key : ∀ env, RaisesUnrecognized env → ∀ n : Nat, ∃ e m,
      raisedInTry env = some e ∧ e.message = some m ∧
      cycle cfg n env =
        { tryCount := n
          trace := (innerTry env).2.1 ++
            [Event.log (.errorName e.name), Event.log (.errorMessage m),
              Event.log (.errorObject e), Event.log (.errorJson e)]
          thrown := none } ∧
      emitted (cycle cfg n env).trace = [] := by
    rintro env ⟨e, m, he, hm, h1, h2, hn⟩ n
    have hc := cycle_of_unrecognized cfg n env e m he hm h1 h2 hn
    refine ⟨e, m, he, hm, hc, ?_⟩
    rw [hc]
    simp [emitted_innerTry env]
  refine ⟨fun env henv n => key env (h env henv) n, ?_⟩
  induction envs with
  | nil => simp [run]
  | cons env rest ih =>
    obtain ⟨e, m, -, -, hc, hem⟩ := key env (h env (List.mem_cons_self _ _)) tryCount
    have ih' := ih (fun env' henv' => h env' (List.mem_cons_of_mem _ henv'))
    have h1 : (cycle cfg tryCount env).tryCount = tryCount := by rw [hc]
    have h3 : (cycle cfg tryCount env).thrown = none := by rw [hc]
    simp only [run, h3, h1]
    simp [hem, ih']

/-- Witness of C2: three iterations that each fail with "429 Too Many
Requests", from a counter that stands at 2. -/
theorem unrecognized_failures_never_count_witness :
    (∀ env ∈ [envUnknown, envUnknown, envUnknown], RaisesUnrecognized env) ∧
      (run cfgDefault 2 [envUnknown, envUnknown, envUnknown]).tryCount = 2 ∧
      emitted (run cfgDefault 2 [envUnknown, envUnknown, envUnknown]).trace = [] ∧
      (run cfgDefault 2 [envUnknown, envUnknown, envUnknown]).thrown = none :=
  have h : ∀ env ∈ [envUnknown, envUnknown, envUnknown], RaisesUnrecognized env := by
    intro env henv
    have : env = envUnknown := by simpa using henv
    subst this
    exact ⟨{ name := "Error", message := some "429 Too Many Requests" },
      "429 Too Many Requests", rfl, rfl, by decide, by decide, by decide⟩
  ⟨h, (unrecognized_failures_never_count cfgDefault 2 _ h).2⟩

/-- C2 as stated fails: the iteration `envUnknown` raises an unrecognized
failure at the reference acquisition, yet from 0 the counter is not 1
afterwards, and after three such iterations in a row the loop has not ended
and the counter still stands at 0. -/
theorem unrecognized_failure_not_counted :
    raisedInTry envUnknown = some { name := "Error", message := some "429 Too Many Requests" } ∧
      includes "429 Too Many Requests" "new blockhash" = false ∧
      includes "429 Too Many Requests" "Blockhash not found" = false ∧
      (cycle cfgDefault 0 envUnknown).tryCount ≠ 0 + 1 ∧
      (run cfgDefault 0 [envUnknown, envUnknown, envUnknown]).thrown = none ∧
      (run cfgDefault 0 [envUnknown, envUnknown, envUnknown]).tryCount = 0 := by
  decide

/-- C3: every iteration whose inner `try` raises a failure with a message
that contains "new blockhash" or "Blockhash not found" leaves `tryCount` as
it was, whatever its value, POSTs no payload and does not end the loop: the
run goes on with the next iteration from the same counter. -/
theorem silent_retry_leaves_counter (cfg : Config) (tryCount : Nat) (env : CycleEnv)
    (e : Failure) (m : String) (h : raisedInTry env = some e) (hm : e.message = some m)
    (hp : includes m "new blockhash" = true ∨ includes m "Blockhash not found" = true) :
    (cycle cfg tryCount env).tryCount = tryCount ∧
      emitted (cycle cfg tryCount env).trace = [] ∧
      (cycle cfg tryCount env).thrown = none ∧
      ∀ rest : List CycleEnv,
        run cfg tryCount (env :: rest) =
          { run cfg tryCount rest with
            trace := (cycle cfg tryCount env).trace ++ (run cfg tryCount rest).trace } := by
  obtain ⟨l, t, hi⟩ := (raisedInTry_iff env e).mp h
  have ht := emitted_innerTry env
  rw [hi] at ht
  simp only at ht
  have hc : ∃ logs, innerCatch l e = .loopAgain logs := by
    rcases innerCatch_blockhash l e m hm hp with hc | hc
    · exact ⟨_, hc⟩
    · exact ⟨_, hc⟩
  obtain ⟨logs, hc⟩ := hc
  have hcy := cycle_of_loopAgain cfg tryCount env l t e logs hi hc
  refine ⟨by rw [hcy], by rw [hcy]; simp [ht], by rw [hcy], ?_⟩
  intro rest
  simp [run, hcy]

/-- Witness of C3: the reference acquisition fails with "Unable to obtain a
new blockhash after 10012ms" while the counter stands at 2. -/
theorem silent_retry_leaves_counter_witness :
    (raisedInTry envNoNewBlockhash =
        some { name := "Error",
               message := some "Unable to obtain a new blockhash after 10012ms" } ∧
      includes "Unable to obtain a new blockhash after 10012ms" "new blockhash" = true) ∧
    ((cycle cfgDefault 2 envNoNewBlockhash).tryCount = 2 ∧
      emitted (cycle cfgDefault 2 envNoNewBlockhash).trace = [] ∧
      (cycle cfgDefault 2 envNoNewBlockhash).thrown = none ∧
      ∀ rest : List CycleEnv,
        run cfgDefault 2 (envNoNewBlockhash :: rest) =
          { run cfgDefault 2 rest with
            trace := (cycle cfgDefault 2 envNoNewBlockhash).trace ++
              (run cfgDefault 2 rest).trace }) :=
  ⟨⟨rfl, by decide⟩,
    silent_retry_leaves_counter cfgDefault 2 envNoNewBlockhash
      { name := "Error", message := some "Unable to obtain a new blockhash after 10012ms" }
      "Unable to obtain a new blockhash after 10012ms" rfl rfl (Or.inl (by decide))⟩

/-- C4, as the code has it: when `VA_API_KEY` is set, the reference
acquisition and the send succeed (the signature, as always, in base-58) and
the confirmation raises the client's failure named
TransactionExpiredBlockheightExceededError, the iteration POSTs exactly one
payload, with `success` false, `signature` the sentinel, `slot_sent` the
processed slot read at the start and no `slot_landed` member, and it never
calls `getTransaction`. -/
theorem expired_confirmation_is_reported (cfg : Config) (tryCount : Nat) (env : CycleEnv)
    (key : String) (slot : Int) (sig : String)
    (hk : cfg.VA_API_KEY = some key)
    (ha : env.acquire = .ok slot) (hs : env.send = .ok sig) (hb : isBase58 sig = true)
    (hc : env.confirm = .error (expiredFailure sig)) :
    (∃ p, emitted (cycle cfg tryCount env).trace = [p] ∧
        p.field "success" = some (Json.bool false) ∧
        p.field "signature" = some (Json.str FAKE_SIGNATURE) ∧
        p.field "slot_sent" = some (Json.num slot) ∧
        p.field "slot_landed" = none) ∧
      ∀ s, Event.rpc (.getTransaction s) ∉ (cycle cfg tryCount env).trace := by
  have hi : innerTry env =
      ({ slotSent := some slot, txStart := some env.txStart, signature := some sig },
        [Event.rpc .getLatestBlockhash, Event.rpc .getSlot, Event.rpc .sendRawTransaction,
          Event.rpc (.confirmTransaction sig)], some (expiredFailure sig)) := by
    simp [innerTry, ha, hs, hc]
  obtain ⟨h1, h2⟩ := expired_message_no_phrase sig hb
  rw [cycle_of_fallThrough cfg tryCount env _ _ _ _ _ key hk hi
    (innerCatch_expired _ (expiredFailure sig) _ rfl h1 h2 rfl) rfl,
    report_of_key cfg env.txEnd _ key hk]
  constructor
  · refine ⟨JSON_stringify (payloadObject cfg env.txEnd
      { slotSent := some slot, txStart := some env.txStart,
        signature := some FAKE_SIGNATURE }), ?_, ?_, ?_, ?_, ?_⟩
    · cases cfg.VERBOSE_LOG <;> simp
    · rw [field_success]; simp
    · rw [field_signature]; rfl
    · rw [field_slot_sent]; rfl
    · rw [field_slot_landed]; rfl
  · intro s
    cases cfg.VERBOSE_LOG <;> simp

/-- Witness of C4: the iteration `envExpired` with the token set. -/
theorem expired_confirmation_is_reported_witness :
    (cfgDefault.VA_API_KEY = some "va-token" ∧
      envExpired.acquire = .ok 100 ∧ envExpired.send = .ok sampleSignature ∧
      isBase58 sampleSignature = true ∧
      envExpired.confirm = .error (expiredFailure sampleSignature)) ∧
    (∃ p, emitted (cycle cfgDefault 1 envExpired).trace = [p] ∧
        p.field "success" = some (Json.bool false) ∧
        p.field "signature" = some (Json.str FAKE_SIGNATURE) ∧
        p.field "slot_sent" = some (Json.num 100) ∧
        p.field "slot_landed" = none) ∧
      ∀ s, Event.rpc (.getTransaction s) ∉ (cycle cfgDefault 1 envExpired).trace :=
  ⟨⟨rfl, rfl, rfl, by decide, rfl⟩,
    expired_confirmation_is_reported cfgDefault 1 envExpired "va-token" 100 sampleSignature
      rfl rfl rfl (by decide) rfl⟩

/-- C4 as stated fails: with `VA_API_KEY` not set, in the iteration
`envExpired` the reference acquisition and the send succeed and the
confirmation raises the failure named
TransactionExpiredBlockheightExceededError; line 180 raises, no payload is
POSTed, and the outer `catch` counts the iteration. -/
theorem expired_without_token_not_reported :
    cfgNoToken.VA_API_KEY = none ∧
      envExpired.acquire = .ok 100 ∧ envExpired.send = .ok sampleSignature ∧
      envExpired.confirm = .error (expiredFailure sampleSignature) ∧
      emitted (cycle cfgNoToken 0 envExpired).trace = [] ∧
      (cycle cfgNoToken 0 envExpired).tryCount = 1 := by
  refine ⟨rfl, rfl, rfl, rfl, ?_, ?_⟩ <;> decide

/-- C5, as the code has it: when the confirmation returns a result with
`result.value.err` set, the iteration logs the failure raised at line 110
(the four lines of error detail, or one blockhash line should its message
hold one of the two phrases) after its four calls, POSTs nothing, leaves
`tryCount` as it was and does not end the loop. -/
theorem rejected_transaction_not_reported (cfg : Config) (tryCount : Nat) (env : CycleEnv)
    (slot : Int) (sig valueJson : String)
    (ha : env.acquire = .ok slot) (hs : env.send = .ok sig)
    (hc : env.confirm = .ok (some valueJson)) :
    ∃ logs : List LogEntry,
      (logs = [.unableNewBlockhash] ∨ logs = [.blockhashNotFound] ∨
        logs = [.errorName "Error",
          .errorMessage ("Transaction " ++ sig ++ " failed (" ++ valueJson ++ ")"),
          .errorObject (transactionFailed sig valueJson),
          .errorJson (transactionFailed sig valueJson)]) ∧
      cycle cfg tryCount env =
        { tryCount := tryCount
          trace := [Event.rpc .getLatestBlockhash, Event.rpc .getSlot,
            Event.rpc .sendRawTransaction, Event.rpc (.confirmTransaction sig)] ++
            logs.map Event.log
          thrown := none } ∧
      emitted (cycle cfg tryCount env).trace = [] := by
  have hi : innerTry env =
      ({ slotSent := some slot, txStart := some env.txStart, signature := some sig },
        [Event.rpc .getLatestBlockhash, Event.rpc .getSlot, Event.rpc .sendRawTransaction,
          Event.rpc (.confirmTransaction sig)], some (transactionFailed sig valueJson)) := by
    simp [innerTry, ha, hs, hc]
  have fin : ∀ logs : List LogEntry,
      innerCatch { slotSent := some slot, txStart := some env.txStart, signature := some sig }
        (transactionFailed sig valueJson) = .loopAgain logs →
      cycle cfg tryCount env =
        { tryCount := tryCount
          trace := [Event.rpc .getLatestBlockhash, Event.rpc .getSlot,
            Event.rpc .sendRawTransaction, Event.rpc (.confirmTransaction sig)] ++
            logs.map Event.log
          thrown := none } ∧
      emitted (cycle cfg tryCount env).trace = [] := by
    intro logs hl
    have hcy := cycle_of_loopAgain cfg tryCount env _ _ _ logs hi hl
    refine ⟨hcy, ?_⟩
    rw [hcy]
    simp
  rcases innerCatch_transactionFailed
    { slotSent := some slot, txStart := some env.txStart, signature := some sig }
    sig valueJson with hl | hl | hl
  · exact ⟨_, Or.inl rfl, fin _ hl⟩
  · exact ⟨_, Or.inr (Or.inl rfl), fin _ hl⟩
  · exact ⟨_, Or.inr (Or.inr rfl), fin _ hl⟩

/-- Witness of C5: the iteration `envRejected`. -/
theorem rejected_transaction_not_reported_witness :
    ∃ logs : List LogEntry,
      (logs = [.unableNewBlockhash] ∨ logs = [.blockhashNotFound] ∨
        logs = [.errorName "Error",
          .errorMessage ("Transaction " ++ sampleSignature ++ " failed (" ++
            "\x7b\"err\":\"AccountInUse\"\x7d" ++ ")"),
          .errorObject (transactionFailed sampleSignature "\x7b\"err\":\"AccountInUse\"\x7d"),
          .errorJson (transactionFailed sampleSignature "\x7b\"err\":\"AccountInUse\"\x7d")]) ∧
      cycle cfgDefault 1 envRejected =
        { tryCount := 1
          trace := [Event.rpc .getLatestBlockhash, Event.rpc .getSlot,
            Event.rpc .sendRawTransaction, Event.rpc (.confirmTransaction sampleSignature)] ++
            logs.map Event.log
          thrown := none } ∧
      emitted (cycle cfgDefault 1 envRejected).trace = [] :=
  rejected_transaction_not_reported cfgDefault 1 envRejected 100 sampleSignature
    "\x7b\"err\":\"AccountInUse\"\x7d" rfl rfl rfl

/-- C5 as stated fails: in the iteration `envRejected` the confirmation
returns a result whose `err` is set, and no payload at all is POSTed, so no
record with `success` false is. -/
theorem rejected_transaction_emits_nothing :
    envRejected.confirm = .ok (some "\x7b\"err\":\"AccountInUse\"\x7d") ∧
      emitted (cycle cfgDefault 0 envRejected).trace = [] ∧
      ¬ ∃ p, p ∈ emitted (cycle cfgDefault 0 envRejected).trace ∧
        p.field "success" = some (Json.bool false) := by
  have h : emitted (cycle cfgDefault 0 envRejected).trace = [] := by decide
  refine ⟨rfl, h, ?_⟩
  rintro ⟨p, hp, -⟩
  rw [h] at hp
  exact absurd hp (List.not_mem_nil _)

/-- C6, as the code has it: when the transaction was sent and confirmed and
`getTransaction` raises a failure, that failure goes straight to the outer
`catch`: the iteration POSTs nothing, the inner `catch` does not see the
failure, `tryCount` goes up by one, and the failure is rethrown, ending the
loop, exactly when the counter thereby reaches `MAX_TRIES`. -/
theorem lookup_failure_is_counted (cfg : Config) (tryCount : Nat) (env : CycleEnv)
    (slot : Int) (sig : String) (e : Failure)
    (ha : env.acquire = .ok slot) (hs : env.send = .ok sig) (hc : env.confirm = .ok none)
    (hsig : sig ≠ FAKE_SIGNATURE) (hl : env.lookup = .error e) :
    cycle cfg tryCount env =
      { tryCount := tryCount + 1
        trace := [Event.rpc .getLatestBlockhash, Event.rpc .getSlot,
          Event.rpc .sendRawTransaction, Event.rpc (.confirmTransaction sig),
          Event.rpc (.getTransaction (some sig)),
          Event.log (.errorName e.name), Event.log (.outerMessage e.message)]
        thrown := if tryCount + 1 = MAX_TRIES then some e else none } ∧
      emitted (cycle cfg tryCount env).trace = [] := by
  have hi : innerTry env =
      ({ slotSent := some slot, txStart := some env.txStart, signature := some sig },
        [Event.rpc .getLatestBlockhash, Event.rpc .getSlot, Event.rpc .sendRawTransaction,
          Event.rpc (.confirmTransaction sig)], none) := by
    simp [innerTry, ha, hs, hc]
  have hcy : cycle cfg tryCount env =
      { tryCount := tryCount + 1
        trace := [Event.rpc .getLatestBlockhash, Event.rpc .getSlot,
          Event.rpc .sendRawTransaction, Event.rpc (.confirmTransaction sig),
          Event.rpc (.getTransaction (some sig)),
          Event.log (.errorName e.name), Event.log (.outerMessage e.message)]
        thrown := if tryCount + 1 = MAX_TRIES then some e else none } := by
    simp [cycle, body, hi, afterTry, hsig, hl]
  refine ⟨hcy, ?_⟩
  rw [hcy]
  simp

/-- Witness of C6: the iteration `envLookupFails` with the counter at 2: the
counter reaches 3 and the loop ends. -/
theorem lookup_failure_is_counted_witness :
    cycle cfgDefault 2 envLookupFails =
      { tryCount := 2 + 1
        trace := [Event.rpc .getLatestBlockhash, Event.rpc .getSlot,
          Event.rpc .sendRawTransaction, Event.rpc (.confirmTransaction sampleSignature),
          Event.rpc (.getTransaction (some sampleSignature)),
          Event.log (.errorName "Error"),
          Event.log (.outerMessage (some "failed to get transaction"))]
        thrown := if 2 + 1 = MAX_TRIES
          then some { name := "Error", message := some "failed to get transaction" }
          else none } ∧
      emitted (cycle cfgDefault 2 envLookupFails).trace = [] :=
  lookup_failure_is_counted cfgDefault 2 envLookupFails 100 sampleSignature
    { name := "Error", message := some "failed to get transaction" } rfl rfl rfl
    (by decide) rfl

/-- C6 as stated fails: in the iteration `envLookupFails` the transaction is
sent and confirmed and `getTransaction` raises; no payload is POSTed and the
counter goes from 0 to 1. -/
theorem lookup_failure_emits_nothing :
    envLookupFails.send = .ok sampleSignature ∧ envLookupFails.confirm = .ok none ∧
      envLookupFails.lookup =
        .error { name := "Error", message := some "failed to get transaction" } ∧
      emitted (cycle cfgDefault 0 envLookupFails).trace = [] ∧
      (cycle cfgDefault 0 envLookupFails).tryCount = 1 := by
  refine ⟨rfl, rfl, rfl, ?_, ?_⟩ <;> decide

/-- C7, as the code has it: an iteration changes `tryCount` in one of two
ways. Either it POSTs a payload (it reaches line 184, whether `success` is
true or false) and the counter is 0 afterwards, or it POSTs nothing and the
counter afterwards is at least what it was. In particular, with `VA_API_KEY`
set, an iteration whose inner `try` raises a failure named
TransactionExpiredBlockheightExceededError with a string message holding
neither blockhash phrase POSTs one payload with `success` false and leaves
the counter at 0, whatever it was before. -/
theorem counter_reset_on_every_report (cfg : Config) (tryCount : Nat) (env : CycleEnv) :
    ((emitted (cycle cfg tryCount env).trace ≠ [] ∧ (cycle cfg tryCount env).tryCount = 0) ∨
      (emitted (cycle cfg tryCount env).trace = [] ∧
        tryCount ≤ (cycle cfg tryCount env).tryCount)) ∧
    (∀ (key : String) (e : Failure) (m : String), cfg.VA_API_KEY = some key →
      raisedInTry env = some e → e.message = some m →
      includes m "new blockhash" = false → includes m "Blockhash not found" = false →
      e.name = EXPIRED →
      (cycle cfg tryCount env).tryCount = 0 ∧
        ∃ p, emitted (cycle cfg tryCount env).trace = [p] ∧
          p.field "success" = some (Json.bool false)) := by
  constructor
  · have hc := cycle_tryCount cfg tryCount env
    rw [cycle_emitted]
    rcases body_cases cfg env with ⟨l, s, hb, -, he, -, -⟩ | ⟨hb, he⟩
    · left; exact ⟨by rw [he]; simp, hc.1 hb⟩
    · right; exact ⟨he, hc.2 hb⟩
  · intro key e m hk he hm h1 h2 hn
    obtain ⟨l, t, hi⟩ := (raisedInTry_iff env e).mp he
    have ht := emitted_innerTry env
    rw [hi] at ht
    simp only at ht
    rw [cycle_of_fallThrough cfg tryCount env l t e _ _ key hk hi
      (innerCatch_expired l e m hm h1 h2 hn) rfl, report_of_key cfg env.txEnd _ key hk]
    refine ⟨rfl, JSON_stringify (payloadObject cfg env.txEnd
      { l with signature := some FAKE_SIGNATURE }), ?_, ?_⟩
    · cases cfg.VERBOSE_LOG <;> simp [ht]
    · rw [field_success]
      simp

/-- Witness of C7: the iteration `envExpired` with the counter at 2. -/
theorem counter_reset_on_every_report_witness :
    (cfgDefault.VA_API_KEY = some "va-token" ∧
      raisedInTry envExpired = some (expiredFailure sampleSignature)) ∧
      (cycle cfgDefault 2 envExpired).tryCount = 0 ∧
      ∃ p, emitted (cycle cfgDefault 2 envExpired).trace = [p] ∧
        p.field "success" = some (Json.bool false) :=
  ⟨⟨rfl, rfl⟩, (counter_reset_on_every_report cfgDefault 2 envExpired).2 "va-token"
    (expiredFailure sampleSignature)
    ("Signature " ++ sampleSignature ++ " has expired: block height exceeded.")
    rfl rfl rfl (by decide) (by decide) rfl⟩

/-- C7 as stated fails: two iterations whose lookup fails take the counter
from 0 to 2; the iteration `envExpired` then POSTs a payload with `success`
false, and the counter afterwards is 0: it was set to 0 by an iteration whose
`success` is not true, it decreased, and it was not left unchanged. -/
theorem counter_reset_by_failed_report :
    (run cfgDefault 0 [envLookupFails, envLookupFails]).tryCount = 2 ∧
      (run cfgDefault 0 [envLookupFails, envLookupFails]).thrown = none ∧
      (emitted (cycle cfgDefault 2 envExpired).trace).map
        (fun p => JsonObject.field p "success") = [some (Json.bool false)] ∧
      (cycle cfgDefault 2 envExpired).tryCount = 0 ∧
      ¬ (2 ≤ (cycle cfgDefault 2 envExpired).tryCount) ∧
      (cycle cfgDefault 2 envExpired).tryCount ≠ 2 := by
  decide

/-- C8: every payload that an iteration POSTs, after a success or after a
failure recorded as such, has `time` equal to the clock read at line 144
minus the clock read at line 95, an integer of milliseconds that is not
negative when the clock did not go back. The failure named
TransactionExpiredBlockheightExceededError is built by the chain client in
`confirmTransaction` only, so the reference acquisition is taken not to raise
a failure of that name; the send and the confirmation come after line 95, so
whichever of them raises the recorded failure, the start time is set. -/
theorem time_is_elapsed_milliseconds (cfg : Config) (tryCount : Nat) (env : CycleEnv)
    (hacq : ∀ e, env.acquire = .error e → e.name ≠ EXPIRED)
    (hclock : env.txStart ≤ env.txEnd)
    (p : JsonObject) (hp : p ∈ emitted (cycle cfg tryCount env).trace) :
    p.field "time" = some (Json.num (env.txEnd - env.txStart)) ∧
      0 ≤ env.txEnd - env.txStart := by
  refine ⟨?_, by omega⟩
  rcases ha : env.acquire with e | slot
  · rw [emitted_of_acquire_failed cfg tryCount env e ha (hacq e ha)] at hp
    exact absurd hp (List.not_mem_nil _)
  · exact time_when_start_recorded cfg tryCount env slot ha p hp

/-- Witness of C8: the record of the iteration `envExpired`, a failure
raised by the confirmation 450 ms after the start. -/
theorem time_is_elapsed_milliseconds_witness :
    ((∀ e, envExpired.acquire = .error e → e.name ≠ EXPIRED) ∧
      envExpired.txStart ≤ envExpired.txEnd ∧
      JSON_stringify (payloadObject cfgDefault 1450
        { slotSent := some 100, signature := some FAKE_SIGNATURE, txStart := some 1000 }) ∈
        emitted (cycle cfgDefault 0 envExpired).trace) ∧
    (JsonObject.field (JSON_stringify (payloadObject cfgDefault 1450
        { slotSent := some 100, signature := some FAKE_SIGNATURE, txStart := some 1000 }))
        "time" = some (Json.num (envExpired.txEnd - envExpired.txStart)) ∧
      0 ≤ envExpired.txEnd - envExpired.txStart) :=
  have hacq : ∀ e, envExpired.acquire = .error e → e.name ≠ EXPIRED :=
    fun e h => Except.noConfusion h
  ⟨⟨hacq, by decide, by decide⟩,
    time_is_elapsed_milliseconds cfgDefault 0 envExpired hacq (by decide) _ (by decide)⟩

/-- C9: for every failure with a string message the inner `catch` does what
the specification's classifier says, first match in the stated order: a
silent retry is a `continue` after one of the two blockhash lines, a failure
to record is the fall through to line 141 with the sentinel signature, an
unknown retry is a `continue` after the four lines of error detail. In
particular a failure named TransactionExpiredBlockheightExceededError whose
message contains one of the two phrases is a silent retry: the `catch` ends
in `continue` after a blockhash line and builds no failure record. -/
theorem innerCatch_refines_classifySpec (l : Locals) (name m : String) :
    (match classifySpec name m with
      | .SilentRetry =>
        innerCatch l { name := name, message := some m } = .loopAgain [.unableNewBlockhash] ∨
          innerCatch l { name := name, message := some m } = .loopAgain [.blockhashNotFound]
      | .RecordAsFailure =>
        innerCatch l { name := name, message := some m } =
          .fallThrough { l with signature := some FAKE_SIGNATURE } [.blockheightExceeded]
      | .UnknownRetry =>
        innerCatch l { name := name, message := some m } =
          .loopAgain [.errorName name, .errorMessage m,
            .errorObject { name := name, message := some m },
            .errorJson { name := name, message := some m }]) ∧
    (Contains m "new blockhash" ∨ Contains m "Blockhash not found" →
      classifySpec EXPIRED m = .SilentRetry ∧
        (innerCatch l { name := EXPIRED, message := some m } = .loopAgain [.unableNewBlockhash] ∨
          innerCatch l { name := EXPIRED, message := some m } =
            .loopAgain [.blockhashNotFound])) := by
  constructor
  · unfold classifySpec
    by_cases h1 : Contains m "new blockhash"
    · have h1' := (includes_iff_contains m "new blockhash").mpr h1
      simp only [h1, if_true]
      left; simp [innerCatch, h1']
    · have h1' : includes m "new blockhash" = false := by
        rw [← Bool.not_eq_true, includes_iff_contains]; exact h1
      by_cases h2 : Contains m "Blockhash not found"
      · have h2' := (includes_iff_contains m "Blockhash not found").mpr h2
        simp only [h1, h2, if_true, if_false]
        right; simp [innerCatch, h1', h2']
      · have h2' : includes m "Blockhash not found" = false := by
          rw [← Bool.not_eq_true, includes_iff_contains]; exact h2
        by_cases hn : name = "TransactionExpiredBlockheightExceededError"
        · simp only [h1, h2, hn, if_true, if_false]
          simp [innerCatch, h1', h2']
        · simp only [h1, h2, hn, if_false]
          simp [innerCatch, h1', h2', hn]
  · intro hp
    have hp' : includes m "new blockhash" = true ∨ includes m "Blockhash not found" = true :=
      hp.imp (includes_iff_contains m _).mpr (includes_iff_contains m _).mpr
    refine ⟨?_, innerCatch_blockhash l _ m rfl hp'⟩
    unfold classifySpec
    rcases hp with h | h
    · simp [h]
    · by_cases h1 : Contains m "new blockhash" <;> simp [h1, h]

/-- Witness of C9: a failure with the expiry's name and the message
"Blockhash not found". -/
theorem innerCatch_refines_classifySpec_witness :
    classifySpec EXPIRED "Blockhash not found" = .SilentRetry ∧
      (innerCatch {} { name := EXPIRED, message := some "Blockhash not found" } =
          .loopAgain [.unableNewBlockhash] ∨
        innerCatch {} { name := EXPIRED, message := some "Blockhash not found" } =
          .loopAgain [.blockhashNotFound]) :=
  (innerCatch_refines_classifySpec {} EXPIRED "Blockhash not found").2 (Or.inr (by decide))

/-- C10, as the code has it: `FAKE_SIGNATURE` is a string of exactly 88
characters, every one of which is the character "9". -/
theorem fake_signature_is_88_nines :
    FAKE_SIGNATURE.length = 88 ∧ ∀ c ∈ FAKE_SIGNATURE.data, c = '9' := by
  decide

/-- C10 as stated fails: `FAKE_SIGNATURE` does not have 90 characters. -/
theorem fake_signature_is_not_90_long :
    ¬ (FAKE_SIGNATURE.length = 90 ∧ ∀ c ∈ FAKE_SIGNATURE.data, c = '9') := by
  decide

end PingThing
